import Mathlib

/-!
Verification of the `MediaSourceCrawl4AI` crawler (src/media_sources.py).

The file shallow-embeds the pure decision logic of the crawler: text/URL
normalization, the article classifier, date extraction and parsing, the
recency filter, the sitemap walker's queue/cap logic, the per-source detail
loop (phases 2-3 of `_fetch_site`), and the aggregator's final dedup.
Network fetches (requests.get, crawl4ai page fetches) are modelled as
environment functions from URL to an optional response; `none` covers a
transport exception or any other failure that the source code catches and
turns into a `continue`.  Python `datetime` values are modelled by a record
of calendar fields; comparisons and `timedelta` subtraction are carried out
on the (order-isomorphic) second count `toSec`.  The wall clock
`datetime.now()` is passed explicitly as `now : Int` (its `toSec` image).
Python's unicode-aware `str.lower` / whitespace handling is modelled on the
ASCII range plus the common unicode whitespace code points, which covers
every string the source manipulates.
-/

/-! ## Basic Python string primitives -/

/-- The double-quote character (written numerically for clarity in char sets). -/
def quoteChar : Char := Char.ofNat 34

/-- The single-quote character. -/
def apoChar : Char := Char.ofNat 39

/-- The backslash character. -/
def bslashChar : Char := Char.ofNat 92

/-- Whitespace as recognised by Python's `str.strip` / regex `\s` on `str`:
ASCII whitespace plus the common unicode whitespace code points. -/
def pyIsSpace (c : Char) : Bool :=
  c = ' ' || c = Char.ofNat 9 || c = Char.ofNat 10 || c = Char.ofNat 13 ||
  c = Char.ofNat 11 || c = Char.ofNat 12 ||
  c = Char.ofNat 0x1c || c = Char.ofNat 0x1d || c = Char.ofNat 0x1e || c = Char.ofNat 0x1f ||
  c = Char.ofNat 0x85 || c = Char.ofNat 0xa0 || c = Char.ofNat 0x2028 || c = Char.ofNat 0x2029 ||
  c = Char.ofNat 0x3000

/-- Python `s.strip()` on a char list. -/
def pyStripList (cs : List Char) : List Char :=
  ((cs.dropWhile pyIsSpace).reverse.dropWhile pyIsSpace).reverse

/-- Python `s.strip()`. -/
def pyStrip (s : String) : String := String.mk (pyStripList s.data)

/-- One pass of `re.sub(r"\s+", " ", s)`: every maximal run of whitespace
becomes a single space.  The boolean argument records whether the previous
character belonged to a whitespace run. -/
def collapseWsGo : Bool → List Char → List Char
  | _, [] => []
  | prev, c :: rest =>
    if pyIsSpace c then
      if prev then collapseWsGo true rest else ' ' :: collapseWsGo true rest
    else c :: collapseWsGo false rest

/-- `MediaSourceCrawl4AI._clean`: `re.sub(r"\s+", " ", (s or "")).strip()`. -/
def _clean (s : String) : String := pyStrip (String.mk (collapseWsGo false s.data))

/-- Python `str.lower`, modelled on the ASCII range (the only range the
source's lowered strings are inspected on). -/
def asciiLower (s : String) : String := String.mk (s.data.map Char.toLower)

/-- Substring test `sub in s` (Python `in` on strings), scanning positions
left to right. -/
def strContainsGo (sub : List Char) : List Char → Bool
  | [] => sub.isEmpty
  | c :: rest => sub.isPrefixOf (c :: rest) || strContainsGo sub rest

/-- Python `sub in s`. -/
def strContains (s sub : String) : Bool := strContainsGo sub.data s.data

/-- Python `s.startswith(pre)`. -/
def pyStartswith (s pre : String) : Bool := pre.data.isPrefixOf s.data

/-- Python `s.endswith(suf)`. -/
def pyEndswith (s suf : String) : Bool := suf.data.isSuffixOf s.data

/-- Numeric value of a decimal digit character. -/
def digitVal (c : Char) : Nat := c.toNat - 48

/-- Python `s.split(sep)` for a nonempty separator, fuelled by the input
length (each step consumes at least one character, so the fuel never runs
out when it starts at the input length). -/
def pySplitGo (sep : List Char) : Nat → List Char → List Char → List (List Char)
  | _, [], acc => [acc.reverse]
  | 0, cs, acc => [acc.reverse ++ cs]
  | fuel + 1, c :: rest, acc =>
    if sep.isPrefixOf (c :: rest) then
      acc.reverse :: pySplitGo sep fuel ((c :: rest).drop sep.length) []
    else pySplitGo sep fuel rest (c :: acc)

/-- Python `s.split(sep)` (nonempty `sep`). -/
def pySplit (s sep : String) : List String :=
  (pySplitGo sep.data s.data.length s.data []).map String.mk

/-! ## Python `datetime` model -/

/-- A Python `datetime.datetime` value (the fields `strptime` can produce
with the three formats used by `_to_datetime`). -/
structure PyDateTime where
  year : Nat
  month : Nat
  day : Nat
  hour : Nat
  minute : Nat
  second : Nat
deriving DecidableEq

/-- Gregorian leap-year rule, as used by Python's `calendar`/`datetime`. -/
def isLeap (y : Nat) : Bool := (y % 4 = 0 && y % 100 ≠ 0) || y % 400 = 0

/-- Days in a month of a given year (0 for an out-of-range month). -/
def daysInMonth (y m : Nat) : Nat :=
  match m with
  | 1 => 31 | 2 => if isLeap y then 29 else 28 | 3 => 31 | 4 => 30
  | 5 => 31 | 6 => 30 | 7 => 31 | 8 => 31 | 9 => 30 | 10 => 31
  | 11 => 30 | 12 => 31 | _ => 0

/-- The validity check performed by the `datetime.datetime` constructor
(`MINYEAR ≤ year ≤ MAXYEAR`, month/day/time field ranges). -/
def pyDatetimeOk (y m d h mi sec : Nat) : Bool :=
  1 ≤ y && y ≤ 9999 && 1 ≤ m && m ≤ 12 && 1 ≤ d && d ≤ daysInMonth y m &&
  h ≤ 23 && mi ≤ 59 && sec ≤ 59

/-- `datetime.datetime(y, m, d, h, mi, sec)`: `none` models the
`ValueError` raised on out-of-range fields. -/
def mkPyDatetime (y m d h mi sec : Nat) : Option PyDateTime :=
  if pyDatetimeOk y m d h mi sec then some ⟨y, m, d, h, mi, sec⟩ else none

/-- Days in all years strictly before year `y` (proleptic Gregorian). -/
def daysBeforeYear (y : Nat) : Nat :=
  365 * (y - 1) + (y - 1) / 4 - (y - 1) / 100 + (y - 1) / 400

/-- Days in the months of year `y` strictly before month `m`. -/
def daysBeforeMonth (y m : Nat) : Nat :=
  ((List.range (m - 1)).map (fun i => daysInMonth y (i + 1))).sum

/-- Order-isomorphic image of a `datetime` as a second count; Python
`datetime` comparison and `timedelta` arithmetic correspond to integer
arithmetic on this image. -/
def toSec (t : PyDateTime) : Int :=
  ((daysBeforeYear t.year + daysBeforeMonth t.year t.month + (t.day - 1)) * 86400
    + t.hour * 3600 + t.minute * 60 + t.second : Nat)

/-! ### `strptime` for the three formats of `_to_datetime`

CPython's `_strptime` compiles `%Y` to `\d\d\d\d`, `%m` to
`1[0-2]|0[1-9]|[1-9]`, `%d` to `3[01]|[12]\d|0[1-9]|[1-9]`, `%H` to
`2[0-3]|[0-1]\d|\d`, `%M` to `[0-5]\d|\d` and `%S` to `6[0-1]|[0-5]\d|\d`,
requires the regex to consume the whole input, and then feeds the fields to
the `datetime` constructor.  The parsers below implement exactly those
alternations (two-digit branch first, then one-digit, with backtracking via
`tryTwoOrOne`'s second alternative) and the full-consumption requirement. -/

/-- Expect one literal character, continue with the rest. -/
def expectChar (c : Char) (cs : List Char) (k : List Char → Option α) : Option α :=
  match cs with
  | x :: rest => if x = c then k rest else none
  | _ => none

/-- `\d\d\d\d` (the `%Y` directive). -/
def parseYear4 (cs : List Char) (k : Nat → List Char → Option α) : Option α :=
  match cs with
  | a :: b :: c :: d :: rest =>
    if a.isDigit && b.isDigit && c.isDigit && d.isDigit then
      k (1000 * digitVal a + 100 * digitVal b + 10 * digitVal c + digitVal d) rest
    else none
  | _ => none

/-- A two-digit-first alternation (`XY|Z` in the `_strptime` regexes), with
full regex backtracking: if the two-digit branch's continuation fails the
one-digit branch is attempted. -/
def tryTwoOrOne (valid2 : Char → Char → Bool) (valid1 : Char → Bool)
    (cs : List Char) (k : Nat → List Char → Option α) : Option α :=
  match (match cs with
         | a :: b :: rest => if valid2 a b then k (10 * digitVal a + digitVal b) rest else none
         | _ => none) with
  | some r => some r
  | none =>
    match cs with
    | a :: rest => if valid1 a then k (digitVal a) rest else none
    | _ => none

/-- `1[0-2]|0[1-9]` (two-digit `%m`). -/
def month2 (a b : Char) : Bool :=
  (a = '1' && (b = '0' || b = '1' || b = '2')) ||
  (a = '0' && decide ('1' ≤ b) && decide (b ≤ '9'))

/-- `[1-9]` (one-digit `%m` and `%d`). -/
def digit19 (c : Char) : Bool := decide ('1' ≤ c) && decide (c ≤ '9')

/-- `3[01]|[12]\d|0[1-9]` (two-digit `%d`). -/
def day2 (a b : Char) : Bool :=
  (a = '3' && (b = '0' || b = '1')) ||
  ((a = '1' || a = '2') && b.isDigit) ||
  (a = '0' && digit19 b)

/-- `2[0-3]|[0-1]\d` (two-digit `%H`). -/
def hour2 (a b : Char) : Bool :=
  (a = '2' && (b = '0' || b = '1' || b = '2' || b = '3')) ||
  ((a = '0' || a = '1') && b.isDigit)

/-- `[0-5]\d` (two-digit `%M`). -/
def minute2 (a b : Char) : Bool :=
  decide ('0' ≤ a) && decide (a ≤ '5') && b.isDigit

/-- `6[0-1]|[0-5]\d` (two-digit `%S`). -/
def second2 (a b : Char) : Bool :=
  (a = '6' && (b = '0' || b = '1')) || (decide ('0' ≤ a) && decide (a ≤ '5') && b.isDigit)

/-- `strptime(s, "%Y-%m-%d")`, raw fields. -/
def parseFmtD (cs : List Char) : Option (Nat × Nat × Nat × Nat × Nat × Nat) :=
  parseYear4 cs fun y r1 =>
  expectChar '-' r1 fun r2 =>
  tryTwoOrOne month2 digit19 r2 fun m r3 =>
  expectChar '-' r3 fun r4 =>
  tryTwoOrOne day2 digit19 r4 fun d r5 =>
  if r5 = [] then some (y, m, d, 0, 0, 0) else none

/-- `strptime(s, "%Y-%m-%d %H:%M")`, raw fields. -/
def parseFmtDHM (cs : List Char) : Option (Nat × Nat × Nat × Nat × Nat × Nat) :=
  parseYear4 cs fun y r1 =>
  expectChar '-' r1 fun r2 =>
  tryTwoOrOne month2 digit19 r2 fun m r3 =>
  expectChar '-' r3 fun r4 =>
  tryTwoOrOne day2 digit19 r4 fun d r5 =>
  expectChar ' ' r5 fun r6 =>
  tryTwoOrOne hour2 Char.isDigit r6 fun h r7 =>
  expectChar ':' r7 fun r8 =>
  tryTwoOrOne minute2 Char.isDigit r8 fun mi r9 =>
  if r9 = [] then some (y, m, d, h, mi, 0) else none

/-- `strptime(s, "%Y-%m-%d %H:%M:%S")`, raw fields. -/
def parseFmtDHMS (cs : List Char) : Option (Nat × Nat × Nat × Nat × Nat × Nat) :=
  parseYear4 cs fun y r1 =>
  expectChar '-' r1 fun r2 =>
  tryTwoOrOne month2 digit19 r2 fun m r3 =>
  expectChar '-' r3 fun r4 =>
  tryTwoOrOne day2 digit19 r4 fun d r5 =>
  expectChar ' ' r5 fun r6 =>
  tryTwoOrOne hour2 Char.isDigit r6 fun h r7 =>
  expectChar ':' r7 fun r8 =>
  tryTwoOrOne minute2 Char.isDigit r8 fun mi r9 =>
  expectChar ':' r9 fun r10 =>
  tryTwoOrOne second2 Char.isDigit r10 fun sec r11 =>
  if r11 = [] then some (y, m, d, h, mi, sec) else none

/-- One `datetime.strptime` attempt: regex parse then constructor check.
`none` models the caught exception, after which the source tries the next
format. -/
def tryFormat (p : List Char → Option (Nat × Nat × Nat × Nat × Nat × Nat))
    (cs : List Char) : Option PyDateTime :=
  match p cs with
  | some (y, m, d, h, mi, sec) => mkPyDatetime y m d h mi sec
  | none => none

/-- The separator normalization of `_to_datetime`:
`s.replace("年","-").replace("月","-").replace("日","").replace("/","-")`. -/
def normalizeDateChars (s : String) : String :=
  String.mk ((s.data.filter (fun c => c ≠ '日')).map
    (fun c => if c = '年' || c = '月' || c = '/' then '-' else c))

/-- `MediaSourceCrawl4AI._to_datetime` (src/media_sources.py lines 27-38):
strip, normalize CJK separators, collapse whitespace, then try the three
exact formats on the first 19 characters; `none` on every failure. -/
def _to_datetime (s : String) : Option PyDateTime :=
  let s0 := pyStrip s
  if s0 = "" then none
  else
    let s1 := normalizeDateChars s0
    let s2 := String.mk (collapseWsGo false s1.data)
    let t := s2.data.take 19
    match tryFormat parseFmtD t with
    | some dt => some dt
    | none =>
      match tryFormat parseFmtDHM t with
      | some dt => some dt
      | none => tryFormat parseFmtDHMS t

/-- `MediaSourceCrawl4AI._is_recent` (src/media_sources.py lines 40-45).
`now` is the `toSec` image of `datetime.now()`; `dt >= now - timedelta(days)`
becomes the corresponding integer comparison. -/
def _is_recent (now : Int) (dt : Option PyDateTime) (days : Int) : Bool :=
  if days ≤ 0 then true
  else
    match dt with
    | none => false
    | some t => decide (now - days * 86400 ≤ toSec t)

/-! ## Date extraction from text or URL -/

/-- Greedy final `(\d{1,2})` of the date regexes: two digits if available,
else one. -/
def grabDay : List Char → Option Nat
  | a :: b :: _ => if a.isDigit then (if b.isDigit then some (10 * digitVal a + digitVal b) else some (digitVal a)) else none
  | [a] => if a.isDigit then some (digitVal a) else none
  | [] => none

/-- `(\d{1,2})sep(\d{1,2})` for the month/day part, with regex backtracking
from the two-digit month to the one-digit month. -/
def matchMonthDay (sepB : Char → Bool) (r1 : List Char) : Option (Nat × Nat) :=
  match (match r1 with
         | m1 :: m2 :: s2 :: r2 =>
           if m1.isDigit && m2.isDigit && sepB s2 then
             (grabDay r2).map (fun d => (10 * digitVal m1 + digitVal m2, d))
           else none
         | _ => none) with
  | some r => some r
  | none =>
    match r1 with
    | m1 :: s2 :: r2 =>
      if m1.isDigit && sepB s2 then (grabDay r2).map (fun d => (digitVal m1, d))
      else none
    | _ => none

/-- Attempt `(20\d{2}) sepA (\d{1,2}) sepB (\d{1,2})` at the head of the
list; the year group is returned verbatim as a string, as `re` does. -/
def matchYmdAt (sepA sepB : Char → Bool) (cs : List Char) : Option (String × Nat × Nat) :=
  match cs with
  | '2' :: '0' :: a :: b :: s1 :: rest =>
    if a.isDigit && b.isDigit && sepA s1 then
      (matchMonthDay sepB rest).map (fun md => (String.mk ['2', '0', a, b], md.1, md.2))
    else none
  | _ => none

/-- `re.search` for the date pattern: leftmost position whose match
succeeds. -/
def findYmd (sepA sepB : Char → Bool) : List Char → Option (String × Nat × Nat)
  | [] => none
  | c :: rest =>
    match matchYmdAt sepA sepB (c :: rest) with
    | some r => some r
    | none => findYmd sepA sepB rest

/-- Character class dash, slash, 年 (first separator of the text pattern). -/
def sepTextA (c : Char) : Bool := c = '-' || c = '/' || c = '年'

/-- Character class dash, slash, 月 (second separator of the text pattern). -/
def sepTextB (c : Char) : Bool := c = '-' || c = '/' || c = '月'

/-- Character class slash, dash (both separators of the URL pattern). -/
def sepUrl (c : Char) : Bool := c = '-' || c = '/'

/-- `f"{int(g):02d}"`. -/
def pad2 (n : Nat) : String := if n < 10 then "0" ++ toString n else toString n

/-- Assemble `f"{m.group(1)}-{int(m.group(2)):02d}-{int(m.group(3)):02d}"`. -/
def fmtYmd (y : String) (m d : Nat) : String := y ++ "-" ++ pad2 m ++ "-" ++ pad2 d

/-- `MediaSourceCrawl4AI._extract_date_from_text_or_url`
(src/media_sources.py lines 86-93): text pattern first, URL pattern as
fallback, empty string when neither matches. -/
def _extract_date_from_text_or_url (text url : String) : String :=
  match findYmd sepTextA sepTextB text.data with
  | some (y, m, d) => fmtYmd y m d
  | none =>
    match findYmd sepUrl sepUrl url.data with
    | some (y, m, d) => fmtYmd y m d
    | none => ""

/-! ## URL parsing (`urllib.parse.urlparse`) -/

/-- Scheme characters accepted by `urlsplit` after the initial letter. -/
def isSchemeChar (c : Char) : Bool := c.isAlpha || c.isDigit || c = '+' || c = '-' || c = '.'

/-- Split a char list at the first occurrence of `c0`. -/
def breakAtFirst (c0 : Char) : List Char → Option (List Char × List Char)
  | [] => none
  | c :: rest =>
    if c = c0 then some ([], rest)
    else (breakAtFirst c0 rest).map (fun p => (c :: p.1, p.2))

/-- The parse result of `urllib.parse.urlparse`. -/
structure PyUrlParts where
  scheme : String
  netloc : String
  path : String
  params : String
  query : String
  fragment : String
deriving DecidableEq

/-- `urlsplit(url, default_scheme)` (fragments allowed), including the
removal of tab/CR/LF that modern CPython performs.  Returns
(scheme, netloc, path-with-params, query, fragment). -/
def pyUrlsplit (url defaultScheme : String) : String × String × String × String × String :=
  let cs0 := url.data.filter (fun c => c ≠ Char.ofNat 9 && c ≠ Char.ofNat 13 && c ≠ Char.ofNat 10)
  -- scheme detection at the first ':'
  let (scheme, cs1) :=
    match breakAtFirst ':' cs0 with
    | some (pre, post) =>
      if pre ≠ [] && (pre.headD ' ').isAlpha && pre.all isSchemeChar then
        (asciiLower (String.mk pre), post)
      else ("", cs0)
    | none => ("", cs0)
  let scheme := if scheme = "" then defaultScheme else scheme
  -- netloc if the remainder starts with //
  let (netloc, cs2) :=
    match cs1 with
    | '/' :: '/' :: rest =>
      let nl := rest.takeWhile (fun c => c ≠ '/' && c ≠ '?' && c ≠ '#')
      (String.mk nl, rest.drop nl.length)
    | _ => ("", cs1)
  let (cs3, fragment) :=
    match breakAtFirst '#' cs2 with
    | some (pre, post) => (pre, String.mk post)
    | none => (cs2, "")
  let (cs4, query) :=
    match breakAtFirst '?' cs3 with
    | some (pre, post) => (pre, String.mk post)
    | none => (cs3, "")
  (scheme, netloc, String.mk cs4, query, fragment)

/-- `_splitparams`: split `;params` off the last path segment. -/
def splitParamsList (cs : List Char) : List Char × List Char :=
  if ';' ∈ cs then
    if '/' ∈ cs then
      -- first ';' inside the suffix that follows the last '/'
      let after := (cs.reverse.takeWhile (fun c => c ≠ '/')).reverse
      match breakAtFirst ';' after with
      | some (x, y) => (cs.take (cs.length - after.length) ++ x, y)
      | none => (cs, [])
    else
      match breakAtFirst ';' cs with
      | some (x, y) => (x, y)
      | none => (cs, [])
  else (cs, [])

/-- `urllib.parse.urlparse(url, default_scheme)`. -/
def pyUrlparse (url defaultScheme : String) : PyUrlParts :=
  let (scheme, netloc, pathRaw, query, fragment) := pyUrlsplit url defaultScheme
  let (pathCs, paramsCs) := splitParamsList pathRaw.data
  ⟨scheme, netloc, String.mk pathCs, String.mk paramsCs, query, fragment⟩

/-! ## Article classifier -/

/-- `\d+\.html` at the very end of the string (the `\d+\.html$` tail of the
dated-article regex). -/
def digitsThenHtmlEnd (cs : List Char) : Bool :=
  let run := cs.takeWhile Char.isDigit
  decide (run ≠ []) && decide (cs.drop run.length = ['.', 'h', 't', 'm', 'l'])

/-- Attempt `/20\d{2}/\d{1,2}/\d+\.html$` at the head of the list. -/
def datedHtmlAt (cs : List Char) : Bool :=
  match cs with
  | '/' :: '2' :: '0' :: a :: b :: '/' :: r1 =>
    if a.isDigit && b.isDigit then
      (match r1 with
       | m1 :: m2 :: '/' :: r2 => m1.isDigit && m2.isDigit && digitsThenHtmlEnd r2
       | _ => false) ||
      (match r1 with
       | m1 :: '/' :: r2 => m1.isDigit && digitsThenHtmlEnd r2
       | _ => false)
    else false
  | _ => false

/-- `re.search(r"/20\d{2}/\d{1,2}/\d+\.html$", u)`: scan all positions. -/
def hasDatedHtmlSuffix : List Char → Bool
  | [] => false
  | c :: rest => datedHtmlAt (c :: rest) || hasDatedHtmlSuffix rest

/-- `MediaSourceCrawl4AI._is_article_url` (src/media_sources.py lines
70-84): rejection rules first, then the acceptance rules, finally the
path-depth heuristic. -/
def _is_article_url (url : String) : Bool :=
  let u := pyStrip (asciiLower url)
  let pu := pyUrlparse u ""
  if pu.path = "" ∨ pu.path = "/" then false
  else if pu.query ≠ "" ∧ strContains pu.query "author=" = true then false
  else if ["/tag/", "/tags/", "/category/", "/author/", "javascript:", "#"].any
      (fun x => strContains u x) then false
  else if ["/meet/", "ai_shortlist", "/short_urls/"].any (fun x => strContains u x) then false
  else if hasDatedHtmlSuffix u.data then true
  else if pyEndswith u ".html" then true
  else if strContains u "/articles/" = true ∧ 3 < ((pySplit u "/articles/").getLastD "").length then true
  else decide (3 ≤ ((pySplit pu.path "/").filter (fun x => x ≠ "")).length)

/-! ## URL joining (`urllib.parse.urljoin`) -/

/-- Schemes for which relative joining applies (`urllib.parse.uses_relative`). -/
def usesRelative : List String :=
  ["", "ftp", "http", "gopher", "nntp", "imap", "wais", "file", "https", "shttp",
   "mms", "prospero", "rtsp", "rtspu", "sftp", "svn", "svn+ssh", "ws", "wss"]

/-- Schemes that carry a network location (`urllib.parse.uses_netloc`). -/
def usesNetloc : List String :=
  ["", "ftp", "http", "gopher", "nntp", "telnet", "imap", "wais", "file", "mms",
   "https", "shttp", "snews", "prospero", "rtsp", "rtspu", "rsync", "svn",
   "svn+ssh", "sftp", "nfs", "git", "git+ssh", "ws", "wss", "itms-services"]

/-- `urllib.parse.urlunsplit`. -/
def pyUrlunsplit (scheme netloc path query fragment : String) : String :=
  let url1 :=
    if netloc ≠ "" || (path ≠ "" && pyStartswith path "//") then
      let p := if path ≠ "" && !(pyStartswith path "/") then "/" ++ path else path
      "//" ++ netloc ++ p
    else path
  let url2 := if scheme ≠ "" then scheme ++ ":" ++ url1 else url1
  let url3 := if query ≠ "" then url2 ++ "?" ++ query else url2
  if fragment ≠ "" then url3 ++ "#" ++ fragment else url3

/-- `urllib.parse.urlunparse`. -/
def pyUrlunparse (scheme netloc path params query fragment : String) : String :=
  pyUrlunsplit scheme netloc (if params ≠ "" then path ++ ";" ++ params else path)
    query fragment

/-- Keep the first and last path segment, drop empty interior segments
(the `segments[1:-1] = filter(None, segments[1:-1])` step of `urljoin`). -/
def filterInteriorSegs (segs : List String) : List String :=
  match segs with
  | [] => []
  | [a] => [a]
  | a :: rest => a :: (rest.dropLast.filter (fun s => s ≠ "") ++ [rest.getLastD ""])

/-- The dot-segment resolution loop of `urljoin` (`".."` pops, `"."` is
skipped, popping an empty stack is a no-op). -/
def resolveSegments (segs : List String) : List String :=
  segs.foldl (fun acc seg =>
    if seg = ".." then acc.dropLast
    else if seg = "." then acc
    else acc ++ [seg]) []

/-- `urllib.parse.urljoin(base, url)`, following the CPython algorithm. -/
def pyUrljoin (base url : String) : String :=
  if base = "" then url
  else if url = "" then base
  else
    let b := pyUrlparse base ""
    let r := pyUrlparse url b.scheme
    if r.scheme ≠ b.scheme || !(usesRelative.contains r.scheme) then url
    else if usesNetloc.contains r.scheme && r.netloc ≠ "" then
      pyUrlunparse r.scheme r.netloc r.path r.params r.query r.fragment
    else
      let netloc := if usesNetloc.contains r.scheme then b.netloc else r.netloc
      if r.path = "" && r.params = "" then
        let query := if r.query = "" then b.query else r.query
        pyUrlunparse r.scheme netloc b.path b.params query r.fragment
      else
        let baseParts0 := pySplit b.path "/"
        let baseParts := if baseParts0.getLastD "" ≠ "" then baseParts0.dropLast else baseParts0
        let segments :=
          if pyStartswith r.path "/" then pySplit r.path "/"
          else filterInteriorSegs (baseParts ++ pySplit r.path "/")
        let resolved := resolveSegments segments
        let resolved :=
          if segments.getLastD "" = "." || segments.getLastD "" = ".." then resolved ++ [""]
          else resolved
        let joined := String.intercalate "/" resolved
        let path := if joined = "" then "/" else joined
        pyUrlunparse r.scheme netloc path r.params r.query r.fragment

/-! ## URL normalizer -/

/-- Python `u.replace("\\/", "/")`: left-to-right non-overlapping
replacement of backslash-slash by slash. -/
def replaceEscSlash : List Char → List Char
  | [] => []
  | [c] => [c]
  | c1 :: c2 :: rest =>
    if c1 = bslashChar && c2 = '/' then '/' :: replaceEscSlash rest
    else c1 :: replaceEscSlash (c2 :: rest)

/-- The preprocessing of `_normalize_url`: `url.strip().replace("\\/", "/")`. -/
def normPre (url : String) : String := String.mk (replaceEscSlash (pyStrip url).data)

/-- A character allowed inside an absolute-URL token: the negated class of
the pattern excludes quotes, whitespace and angle brackets. -/
def urlTokChar (c : Char) : Bool :=
  !(c = quoteChar || c = apoChar || pyIsSpace c || c = '<' || c = '>')

/-- Attempt the absolute-URL pattern at the head of the list; on success
return the (maximal, greedy) token and the remainder of the input. -/
def matchAbsAt (cs : List Char) : Option (List Char × List Char) :=
  match cs with
  | 'h' :: 't' :: 't' :: 'p' :: 's' :: ':' :: '/' :: '/' :: rest =>
    if rest.takeWhile urlTokChar = [] then none
    else some (['h', 't', 't', 'p', 's', ':', '/', '/'] ++ rest.takeWhile urlTokChar,
               rest.drop (rest.takeWhile urlTokChar).length)
  | 'h' :: 't' :: 't' :: 'p' :: ':' :: '/' :: '/' :: rest =>
    if rest.takeWhile urlTokChar = [] then none
    else some (['h', 't', 't', 'p', ':', '/', '/'] ++ rest.takeWhile urlTokChar,
               rest.drop (rest.takeWhile urlTokChar).length)
  | _ => none

/-- `re.findall` for the absolute-URL pattern: scan left to right, resume
after each match (fuelled by the input length; every step consumes at
least one character). -/
def findAbsGo : Nat → List Char → List String
  | 0, _ => []
  | _ + 1, [] => []
  | fuel + 1, c :: rest =>
    match matchAbsAt (c :: rest) with
    | some (tok, rst) => String.mk tok :: findAbsGo fuel rst
    | none => findAbsGo fuel rest

/-- `re.findall(r"https?://[^\"'\s<>]+", u)`. -/
def absUrlTokens (s : String) : List String := findAbsGo s.data.length s.data

/-- `re.match(r"^https?://[^/]+/(https?://.+)$", u)` and its group 1.  The
trailing-dollar anchor also matches just before one final newline; the dot
never matches a newline. -/
def unwrapHostMatch (u : String) : Option String :=
  let afterScheme : Option (List Char) :=
    match u.data with
    | 'h' :: 't' :: 't' :: 'p' :: 's' :: ':' :: '/' :: '/' :: rest => some rest
    | 'h' :: 't' :: 't' :: 'p' :: ':' :: '/' :: '/' :: rest => some rest
    | _ => none
  match afterScheme with
  | none => none
  | some rest =>
    let host := rest.takeWhile (fun c => c ≠ '/')
    if host = [] then none
    else
      match rest.drop host.length with
      | '/' :: tail =>
        let tail2 :=
          match tail.getLast? with
          | some nl => if nl = Char.ofNat 10 then tail.dropLast else tail
          | none => tail
        match tail2 with
        | 'h' :: 't' :: 't' :: 'p' :: 's' :: ':' :: '/' :: '/' :: r2 =>
          if decide (r2 ≠ []) && r2.all (fun c => c ≠ Char.ofNat 10) then
            some (String.mk tail2)
          else none
        | 'h' :: 't' :: 't' :: 'p' :: ':' :: '/' :: '/' :: r2 =>
          if decide (r2 ≠ []) && r2.all (fun c => c ≠ Char.ofNat 10) then
            some (String.mk tail2)
          else none
        | _ => none
      | _ => none

/-- `MediaSourceCrawl4AI._normalize_url` (src/media_sources.py lines
47-68): pick the last embedded absolute URL when there are two or more,
the single one when the input does not start with it; resolve relative
URLs against `base`; unwrap a URL nested behind another authority; strip
the fragment. -/
def _normalize_url (base url : String) : String :=
  if url = "" then ""
  else
    let u0 := normPre url
    let absUrls := absUrlTokens u0
    let u1 :=
      if 2 ≤ absUrls.length then absUrls.getLastD ""
      else if absUrls.length = 1 && !(pyStartswith u0 (absUrls.headD "")) then absUrls.headD ""
      else u0
    let u2 :=
      if !(pyStartswith u1 "http://" || pyStartswith u1 "https://") then pyUrljoin base u1
      else u1
    let u3 :=
      match unwrapHostMatch u2 with
      | some inner => inner
      | none => u2
    pyStrip ((pySplit u3 "#").headD "")

/-! ## Sitemap walker

`_parse_sitemap_recursive` interleaves plain-HTTP fetching, gzip
decompression and XML parsing with its queue logic.  The I/O side is
modelled by an environment `env : String → Option SitemapDoc`: `some doc`
is a successful fetch whose parsed XML yields the nested-sitemap `loc`
entries and the leaf `url/loc` entries (in document order, whichever of
the namespaced/bare tag forms matched); `none` covers every path on which
the source logs and continues (HTTP error status, a transport or
decompression exception, non-XML content, an XML parse error).  The loop
itself — queue, seen-set, cap check before each fetch, per-entry append
with an inner break at the cap — is translated verbatim; since a chain of
index sitemaps can in principle be unbounded, the loop is fuelled, and the
cap theorem holds for every fuel. -/

/-- The parsed content of one sitemap document. -/
structure SitemapDoc where
  sitemaps : List String
  urls : List String
deriving DecidableEq

/-- The inner `for loc in locs` loop: strip, skip empties, append, break
once the output has reached `max_urls`. -/
def appendLocs (maxU : Nat) : List String → List String → List String
  | out, [] => out
  | out, l :: ls =>
    let x := pyStrip l
    if x = "" then appendLocs maxU out ls
    else
      let out' := out ++ [x]
      if maxU ≤ out'.length then out' else appendLocs maxU out' ls

/-- The `while queue and len(out) < max_urls` loop of
`_parse_sitemap_recursive`. -/
def walkSitemapGo (env : String → Option SitemapDoc) (maxU : Nat) :
    Nat → List String → List String → List String → List String
  | 0, _, _, out => out
  | _ + 1, [], _, out => out
  | fuel + 1, u :: rest, seen, out =>
    if maxU ≤ out.length then out
    else if u ∈ seen then walkSitemapGo env maxU fuel rest seen out
    else
      let seen' := u :: seen
      match env u with
      | none => walkSitemapGo env maxU fuel rest seen' out
      | some doc =>
        let queue' := rest ++ (doc.sitemaps.map pyStrip).filter (fun s => s ≠ "")
        let out' := appendLocs maxU out doc.urls
        walkSitemapGo env maxU fuel queue' seen' out'

/-- `MediaSourceCrawl4AI._parse_sitemap_recursive` (src/media_sources.py
lines 148-197), over a fetch environment and a fuel bound on loop
iterations. -/
def _parse_sitemap_recursive (env : String → Option SitemapDoc) (fuel : Nat)
    (sitemap_url : String) (max_urls : Nat) : List String :=
  walkSitemapGo env max_urls fuel [sitemap_url] [] []

/-! ## Per-source fetch pipeline (phases 2 and 3 of `_fetch_site`)

Phase 1 (entry-page fetching and candidate discovery) produces a candidate
list; the definitions below take that list as input and embed everything
from the dedup step (line 272) to the result loop (lines 294-371).  A
detail-page fetch is an environment `String → Option FetchResult`; `none`
models the caught per-candidate exception, a `FetchResult` with
`success = false` models `res.success` being falsy.  `res.markdown`,
`res.html` and the metadata title are optional strings, matching the
`or ""` / truthiness guards in the source. -/

/-- A discovered candidate link (`{"title": ..., "url": ...}`). -/
structure Candidate where
  title : String
  url : String
deriving DecidableEq

/-- The crawl4ai result fields the detail loop reads. -/
structure FetchResult where
  success : Bool
  markdown : Option String
  html : Option String
  metaTitle : Option String
deriving DecidableEq

/-- An emitted article record (the dict built at lines 353-362). -/
structure ArticleRecord where
  title : String
  url : String
  abstract : String
  source : String
  source_type : String
  is_secondary : Bool
  paper_ref_confidence : ℚ
  pub_date : String
deriving DecidableEq

/-- The fixed `paper_ref_confidence` score 0.35 of every emitted record,
written as the reduced rational 7/20 (an explicit constructor application,
so that records evaluate inside the kernel). -/
def paperRefConfidence : ℚ := ⟨7, 20, by decide, by decide⟩

/-- Existence of `202\d[-:slash]\d{1,2}[-:slash]\d{1,2}` at the head of the
list (the date core of the meta-tag regex; separators are dash or slash). -/
def meta202At (cs : List Char) : Bool :=
  match cs with
  | '2' :: '0' :: '2' :: a :: s1 :: r1 =>
    if a.isDigit && (s1 = '-' || s1 = '/') then
      (match r1 with
       | m1 :: m2 :: s2 :: r2 =>
         m1.isDigit && m2.isDigit && (s2 = '-' || s2 = '/') &&
           (match r2 with
            | d :: _ => d.isDigit
            | [] => false)
       | _ => false) ||
      (match r1 with
       | m1 :: s2 :: r2 =>
         m1.isDigit && (s2 = '-' || s2 = '/') &&
           (match r2 with
            | d :: _ => d.isDigit
            | [] => false)
       | _ => false)
    else false
  | _ => false

/-- Scan for the date core anywhere in the list. -/
def metaScan202 : List Char → Bool
  | [] => false
  | c :: rest => meta202At (c :: rest) || metaScan202 rest

/-- Attempt the whole meta regex
`content="([^,]*202\d..[^,]*)"` (the bracket classes exclude the double
quote) at the head of the list.  Group 1 is always the full run of
non-quote characters after `content="`, provided the run is terminated by
a quote and contains the date core. -/
def metaAttrAt (cs : List Char) : Option String :=
  match cs with
  | 'c' :: 'o' :: 'n' :: 't' :: 'e' :: 'n' :: 't' :: '=' :: q :: rest =>
    if q = quoteChar then
      let run := rest.takeWhile (fun c => c ≠ quoteChar)
      match rest.drop run.length with
      | q2 :: _ => if q2 = quoteChar && metaScan202 run then some (String.mk run) else none
      | [] => none
    else none
  | _ => none

/-- `re.search` for the meta-tag date regex at line 313: leftmost position
whose match succeeds. -/
def metaDateSearch : List Char → Option String
  | [] => none
  | c :: rest =>
    match metaAttrAt (c :: rest) with
    | some g => some g
    | none => metaDateSearch rest

/-- The title-resolution step (lines 332-336): prefer the page's metadata
title, cut at the first pipe or dash, when it is truthy and either longer
than the anchor title or the anchor title is still the placeholder. -/
def resolveFinalTitle (anchorTitle : String) (metaTitle : Option String) : String :=
  match metaTitle with
  | none => anchorTitle
  | some t =>
    if t = "" then anchorTitle
    else
      let page_title := _clean ((pySplit ((pySplit t "|").headD "") "-").headD "")
      if anchorTitle.length < page_title.length || anchorTitle = "待解析标题" then page_title
      else anchorTitle

/-- The final title gate of the detail loop (lines 347-351) together with
the record build and append decision (lines 353-362): reject a placeholder
or too-short title, reject a page-not-found or 404 title, otherwise emit
the record. -/
def finalGate (final_title : String) (rec : ArticleRecord) : Option ArticleRecord :=
  if final_title = "待解析标题" ∨ final_title.length < 4 then none
  else if strContains final_title "找不到您请求的页面" = true ∨
      strContains (asciiLower final_title) "404" = true then none
  else some rec

/-- The body of one iteration of the detail loop (lines 298-362), from the
detail fetch to the record build; `none` is any `continue`. -/
def processCandidate (env : String → Option FetchResult) (source : String) (days : Int)
    (targetDate : Option (Nat × Nat × Nat)) (now : Int) (c : Candidate) :
    Option ArticleRecord :=
  match env c.url with
  | none => none
  | some res =>
    if !res.success then none
    else
      let markdown_text := res.markdown.getD ""
      let html_text := res.html.getD ""
      let pub_date0 := _extract_date_from_text_or_url markdown_text c.url
      let pub_date :=
        if pub_date0 = "" then
          match metaDateSearch html_text.data with
          | some g => _extract_date_from_text_or_url g ""
          | none => pub_date0
        else pub_date0
      let dt := _to_datetime pub_date
      let dateOk : Bool :=
        match targetDate, dt with
        | some _, none => false
        | some td, some d => decide ((d.year, d.month, d.day) = td)
        | none, none => decide (source = "jiqizhixin")
        | none, some d => _is_recent now (some d) days
      if !dateOk then none
      else
        let final_title := resolveFinalTitle c.title res.metaTitle
        if source = "jiqizhixin" ∧
            ["文章库", "找不到您请求的页面", "404"].any (fun k => strContains final_title k) = true then
          none
        else if source = "jiqizhixin" ∧ (_clean markdown_text).length < 200 then none
        else
          finalGate final_title
            { title := final_title
              url := c.url
              abstract := _clean (String.mk (markdown_text.data.take 800))
              source := source
              source_type := "commentary"
              is_secondary := true
              paper_ref_confidence := paperRefConfidence
              pub_date := pub_date }

/-- The detail loop (lines 294-371): per-candidate seen check, process,
append, and the early exit `if len(results) >= limit: break` tested right
after each append. -/
def detailLoop (env : String → Option FetchResult) (source : String) (days : Int)
    (limit : Int) (targetDate : Option (Nat × Nat × Nat)) (now : Int) :
    List Candidate → List String → List ArticleRecord → List ArticleRecord
  | [], _, results => results
  | c :: cs, seenUrl, results =>
    if c.url ∈ seenUrl then detailLoop env source days limit targetDate now cs seenUrl results
    else
      let seen' := c.url :: seenUrl
      match processCandidate env source days targetDate now c with
      | none => detailLoop env source days limit targetDate now cs seen' results
      | some r =>
        let results' := results ++ [r]
        if limit ≤ (results'.length : Int) then results'
        else detailLoop env source days limit targetDate now cs seen' results'

/-- Candidate dedup by URL, first occurrence wins (lines 272-277). -/
def dedupCandidates : List Candidate → List String → List Candidate
  | [], _ => []
  | c :: rest, seen =>
    if c.url ∈ seen then dedupCandidates rest seen
    else c :: dedupCandidates rest (c.url :: seen)

/-- `_rank_candidate` (lines 282-286): the sort key
`(1 if dt else 0, dt or datetime.min)`, with the datetime component taken
through `toSec`. -/
def rankKey (c : Candidate) : Nat × Int :=
  let d := _extract_date_from_text_or_url "" c.url
  let dt := if d ≠ "" then _to_datetime d else none
  match dt with
  | some t => (1, toSec t)
  | none => (0, toSec ⟨1, 1, 1, 0, 0, 0⟩)

/-- Lexicographic order on rank keys. -/
def rankLe (x y : Nat × Int) : Bool :=
  decide (x.1 < y.1 ∨ (x.1 = y.1 ∧ x.2 ≤ y.2))

/-- Stable descending insertion: the scanned element stays in front exactly
when the inserted (originally later) element does not rank strictly
higher. -/
def sortDescInsert (c : Candidate) : List Candidate → List Candidate
  | [] => [c]
  | y :: ys => if rankLe (rankKey c) (rankKey y) then y :: sortDescInsert c ys else c :: y :: ys

/-- `sorted(dedup, key=_rank_candidate, reverse=True)` (line 288): Python's
sort is stable, so its output is the unique key-descending,
tie-order-preserving permutation, which stable insertion produces. -/
def sortByRankDesc (l : List Candidate) : List Candidate :=
  l.foldl (fun acc c => sortDescInsert c acc) []

/-- Phases 2-3 of `MediaSourceCrawl4AI._fetch_site` (src/media_sources.py
lines 271-371): dedup, rank, truncate to `max(limit, 10)` (the source's
conditional at line 289 yields the same expression in both branches), then
the detail loop. -/
def _fetch_site_detail (env : String → Option FetchResult) (source : String) (days : Int)
    (limit : Int) (targetDate : Option (Nat × Nat × Nat)) (now : Int)
    (candidates : List Candidate) : List ArticleRecord :=
  let dedup := dedupCandidates candidates []
  let ranked := sortByRankDesc dedup
  let max_probe := max limit 10
  let probed := ranked.take max_probe.toNat
  detailLoop env source days limit targetDate now probed [] []

/-! ## Aggregator -/

/-- The final dedup loop of `a_search` (src/media_sources.py lines
392-399): key `(title, url)`, first occurrence wins. -/
def final_dedup_go : List ArticleRecord → List (String × String) → List ArticleRecord
  | [], _ => []
  | it :: rest, seen =>
    if (it.title, it.url) ∈ seen then final_dedup_go rest seen
    else it :: final_dedup_go rest ((it.title, it.url) :: seen)

/-- The merge step of `a_search`: concatenate the per-source pipeline
results, then deduplicate globally by `(title, url)`. -/
def a_search_merge (all_items : List ArticleRecord) : List ArticleRecord :=
  final_dedup_go all_items []

/-- The `(title, url)` dedup key. -/
def recordKey (r : ArticleRecord) : String × String := (r.title, r.url)

/-! ## Concrete demonstration environments -/

/-- Ten digit-letters used to build 1000 distinct leaf URLs cheaply. -/
def leafChars : List Char := ['a', 'b', 'c', 'd', 'e', 'f', 'g', 'h', 'i', 'j']

/-- 1000 pairwise distinct leaf URLs. -/
def sitemapLeafList : List String :=
  leafChars.flatMap (fun a => leafChars.flatMap (fun b => leafChars.map (fun c =>
    "https://r.example/" ++ String.mk [a, b, c] ++ ".html")))

/-- A sitemap fetch environment: a sitemap index pointing at two child
sitemaps that together expand to the 1000 leaf URLs. -/
def sitemapEnvDemo : String → Option SitemapDoc := fun u =>
  if u = "https://r.example/sitemap.xml" then
    some ⟨["https://r.example/s1.xml", "https://r.example/s2.xml"], []⟩
  else if u = "https://r.example/s1.xml" then some ⟨[], sitemapLeafList.take 500⟩
  else if u = "https://r.example/s2.xml" then some ⟨[], sitemapLeafList.drop 500⟩
  else none

/-- A detail-fetch environment with one successful article page. -/
def qbitaiEnvDemo : String → Option FetchResult := fun u =>
  if u = "https://www.qbitai.com/2024/05/12345.html" then
    some { success := true
           markdown := some "发布于 2024-05-06 今天的正文内容。"
           html := some ""
           metaTitle := none }
  else none

/-- The candidate probed in `qbitaiEnvDemo`. -/
def qbitaiCandDemo : Candidate :=
  { title := "Quantum AI Breakthrough Report"
    url := "https://www.qbitai.com/2024/05/12345.html" }

/-- The record the detail loop emits for `qbitaiCandDemo`. -/
def recDemo : ArticleRecord :=
  { title := "Quantum AI Breakthrough Report"
    url := "https://www.qbitai.com/2024/05/12345.html"
    abstract := "发布于 2024-05-06 今天的正文内容。"
    source := "qbitai"
    source_type := "commentary"
    is_secondary := true
    paper_ref_confidence := paperRefConfidence
    pub_date := "2024-05-06" }

/-- A record carrying the same `(title, url)` key as `recDemo` but a
different abstract (for the aggregator-dedup demonstration). -/
def recDemoAlt : ArticleRecord := { recDemo with abstract := "另一个摘要" }

/-! ## Lemmas: the sitemap cap -/

/-- `appendLocs` never pushes the output past the cap when it starts below
the cap. -/
theorem appendLocs_length_le (maxU : Nat) :
    ∀ (ls out : List String), out.length < maxU → (appendLocs maxU out ls).length ≤ maxU := by
  intro ls
  induction ls with
  | nil => intro out h; simpa [appendLocs] using Nat.le_of_lt h
  | cons l ls ih =>
    intro out h
    simp only [appendLocs]
    split
    · exact ih out h
    · split
      · next hfull =>
        simpa using Nat.succ_le_of_lt h
      · next hnotfull =>
        exact ih (out ++ [pyStrip l]) (by omega)

/-- The walker loop never pushes the output past the cap. -/
theorem walkSitemapGo_length_le (env : String → Option SitemapDoc) (maxU : Nat) :
    ∀ (fuel : Nat) (queue seen out : List String), out.length ≤ maxU →
      (walkSitemapGo env maxU fuel queue seen out).length ≤ maxU := by
  intro fuel
  induction fuel with
  | zero => intro queue seen out h; simpa [walkSitemapGo] using h
  | succ fuel ih =>
    intro queue seen out h
    match queue with
    | [] => simpa [walkSitemapGo] using h
    | u :: rest =>
      simp only [walkSitemapGo]
      split
      · exact h
      · next hbelow =>
        have hlt : out.length < maxU := by omega
        split
        · exact ih rest seen out h
        · split
          · exact ih rest (u :: seen) out h
          · exact ih _ (u :: seen) _ (appendLocs_length_le maxU _ out hlt)

set_option maxRecDepth 1000000 in
set_option maxHeartbeats 4000000 in
/-- Claim C3: the sitemap walker's output never exceeds `max_urls` leaf
URLs — for every fetch environment, fuel, root and cap — and it reaches the
cap exactly on a sitemap index expanding to 1000 leaf URLs with
`max_urls = 500`: there the returned list has length exactly 500. -/
theorem c3_sitemap_cap :
    (∀ (env : String → Option SitemapDoc) (fuel : Nat) (root : String) (maxU : Nat),
      (_parse_sitemap_recursive env fuel root maxU).length ≤ maxU) ∧
    (_parse_sitemap_recursive sitemapEnvDemo 20 "https://r.example/sitemap.xml" 500).length = 500 := by
  constructor
  · intro env fuel root maxU
    exact walkSitemapGo_length_le env maxU fuel [root] [] [] (Nat.zero_le _)
  · decide

/-- Claim C4: the article classifier decides the four specification
examples as stated (its rejection rules are tested before its acceptance
rules, in the order of the source). -/
theorem c4_classifier_examples :
    _is_article_url "https://site.com/tag/ai" = false ∧
    _is_article_url "https://qbitai.com/2024/05/12345.html" = true ∧
    _is_article_url "https://site.com/" = false ∧
    _is_article_url "https://site.com/a/b/c" = true := by
  exact ⟨by decide, by decide, by decide, by decide⟩

/-- Claim C2: `_normalize_url` is not idempotent.  The inner-URL unwrap
step runs only once per call, so on an input nesting three absolute URLs
the first application strips one wrapping authority and the second strips
another: applying the normalizer to its own output changes the result,
contradicting the stated idempotence contract. -/
theorem c2_idempotence_fails :
    _normalize_url "https://www.qbitai.com/"
        (_normalize_url "https://www.qbitai.com/"
          "https://a.example/https://b.example/https://c.example/post") ≠
      _normalize_url "https://www.qbitai.com/"
        "https://a.example/https://b.example/https://c.example/post" := by
  decide

/-- A nonempty list's `getLastD` is a member. -/
theorem getLastD_mem_of_ne_nil {α : Type} : ∀ (l : List α) (d : α), l ≠ [] → l.getLastD d ∈ l := by
  intro l
  induction l with
  | nil => intro d h; exact absurd rfl h
  | cons a l ih =>
    intro d _
    cases l with
    | nil => simp [List.getLastD]
    | cons b l' =>
      rw [List.getLastD_cons]
      exact List.mem_cons_of_mem a (ih a (by simp))

/-- Every token produced by the absolute-URL matcher starts with a scheme. -/
theorem matchAbsAt_starts (cs tok rst : List Char) (h : matchAbsAt cs = some (tok, rst)) :
    pyStartswith (String.mk tok) "http://" = true ∨
    pyStartswith (String.mk tok) "https://" = true := by
  unfold matchAbsAt at h
  split at h
  · split at h
    · exact Option.noConfusion h
    · right
      injection h with h
      obtain ⟨h1, -⟩ := Prod.mk.injEq .. ▸ h
      subst h1
      show ("https://".data).isPrefixOf _ = true
      rw [List.isPrefixOf_iff_prefix]
      exact List.prefix_append _ _
  · split at h
    · exact Option.noConfusion h
    · left
      injection h with h
      obtain ⟨h1, -⟩ := Prod.mk.injEq .. ▸ h
      subst h1
      show ("http://".data).isPrefixOf _ = true
      rw [List.isPrefixOf_iff_prefix]
      exact List.prefix_append _ _
  · exact Option.noConfusion h

/-- Every token found by the scanner starts with a scheme. -/
theorem findAbsGo_starts :
    ∀ (fuel : Nat) (cs : List Char) (t : String), t ∈ findAbsGo fuel cs →
      pyStartswith t "http://" = true ∨ pyStartswith t "https://" = true := by
  intro fuel
  induction fuel with
  | zero => intro cs t ht; simp [findAbsGo] at ht
  | succ fuel ih =>
    intro cs t ht
    match cs with
    | [] => simp [findAbsGo] at ht
    | c :: rest =>
      rw [findAbsGo] at ht
      cases hm : matchAbsAt (c :: rest) with
      | some pr =>
        rw [hm] at ht
        rcases List.mem_cons.mp ht with h | h
        · subst h; exact matchAbsAt_starts _ _ _ hm
        · exact ih _ _ h
      | none =>
        rw [hm] at ht
        exact ih _ _ ht

/-- Claim C1 (amended): `_normalize_url` collapses to the last embedded
absolute URL only when the token scanner finds two or more absolute-URL
tokens — maximal runs, so two URLs glued together with no quote,
whitespace or angle bracket between them form a single token.  When the
scanner finds two or more tokens the result is computed from the last
token alone and is therefore independent of `base`; on a delimiter-
separated wrapper/target pair the last URL is indeed all that is kept. -/
theorem c1_keeps_last_token :
    (∀ b1 b2 url : String, 2 ≤ (absUrlTokens (normPre url)).length →
      _normalize_url b1 url = _normalize_url b2 url) ∧
    _normalize_url "https://base.example/" "https://redirect.com/go https://real.com/post" =
      "https://real.com/post" := by
  constructor
  · intro b1 b2 url h2
    have hne : ¬ (url = "") := by
      intro he
      rw [he] at h2
      simp [normPre, pyStrip, pyStripList, absUrlTokens, replaceEscSlash, findAbsGo] at h2
    have hnn : absUrlTokens (normPre url) ≠ [] := by
      intro he; rw [he] at h2; simp at h2
    have hstart : pyStartswith ((absUrlTokens (normPre url)).getLastD "") "http://" = true ∨
        pyStartswith ((absUrlTokens (normPre url)).getLastD "") "https://" = true :=
      findAbsGo_starts _ _ _ (getLastD_mem_of_ne_nil _ "" hnn)
    have hcond : (pyStartswith ((absUrlTokens (normPre url)).getLastD "") "http://" ||
        pyStartswith ((absUrlTokens (normPre url)).getLastD "") "https://") = true := by
      rcases hstart with h | h
      · rw [h]; exact Bool.true_or _
      · rw [h]; exact Bool.or_true _
    unfold _normalize_url
    rw [if_neg hne, if_neg hne]
    simp only [h2, if_true, hcond, Bool.not_true, Bool.false_eq_true, if_false]
  · decide

/-- Claim C1 (counterexample): on the specification's own example the
embedded target URL is part of one single token, so the normalizer returns
the input unchanged instead of `https://real.com/post`. -/
theorem c1_example_not_collapsed :
    _normalize_url "https://base.example/" "https://redirect.com/go?u=https://real.com/post" ≠
      "https://real.com/post" := by
  decide

/-- Witness for the amended claim C1 at a concrete input. -/
theorem c1_keeps_last_token_witness :
    _normalize_url "https://one.example/" "https://redirect.com/go https://real.com/post" =
      _normalize_url "https://two.example/" "https://redirect.com/go https://real.com/post" :=
  c1_keeps_last_token.1 "https://one.example/" "https://two.example/"
    "https://redirect.com/go https://real.com/post" (by decide)

/-- Claim C5: date extraction prefers the text over the URL.  When the
text pattern matches, the result does not depend on the URL argument at
all; when it does not match, the result is exactly the URL fallback; the
specification's precedence example and the URL-fallback and empty cases
evaluate as stated. -/
theorem c5_date_precedence :
    (∀ text u1 u2 : String, findYmd sepTextA sepTextB text.data ≠ none →
      _extract_date_from_text_or_url text u1 = _extract_date_from_text_or_url text u2) ∧
    (∀ text url : String, findYmd sepTextA sepTextB text.data = none →
      _extract_date_from_text_or_url text url = _extract_date_from_text_or_url "" url) ∧
    _extract_date_from_text_or_url "发布于 2024年5月3日" "https://site.com/2023/01/01/" =
      "2024-05-03" ∧
    _extract_date_from_text_or_url "no date here" "https://site.com/2023/01/01/" = "2023-01-01" ∧
    _extract_date_from_text_or_url "no date here" "" = "" := by
  refine ⟨?_, ?_, by decide, by decide, by decide⟩
  · intro text u1 u2 h
    unfold _extract_date_from_text_or_url
    cases hm : findYmd sepTextA sepTextB text.data with
    | none => exact absurd hm h
    | some r => rfl
  · intro text url h
    unfold _extract_date_from_text_or_url
    rw [h]
    rfl

/-- Witness for claim C5 at concrete inputs. -/
theorem c5_date_precedence_witness :
    _extract_date_from_text_or_url "记于 2024年5月3日" "https://a.example/" =
      _extract_date_from_text_or_url "记于 2024年5月3日" "https://b.example/2020/01/02/" ∧
    _extract_date_from_text_or_url "no date" "https://site.com/2023/01/01/" =
      _extract_date_from_text_or_url "" "https://site.com/2023/01/01/" :=
  ⟨c5_date_precedence.1 "记于 2024年5月3日" "https://a.example/"
      "https://b.example/2020/01/02/" (by decide),
   c5_date_precedence.2.1 "no date" "https://site.com/2023/01/01/" (by decide)⟩

/-- Claim C6: the recency check's contract.  With `days ≤ 0` it accepts
everything (even a null datetime); with `days > 0` a null datetime is
rejected, and a present datetime is accepted exactly when it is at least
`now` minus `days` days (stated on the order-isomorphic second counts). -/
theorem c6_is_recent_contract :
    ∀ (now days : Int) (dt : Option PyDateTime),
      (days ≤ 0 → _is_recent now dt days = true) ∧
      (0 < days → _is_recent now none days = false) ∧
      (∀ t : PyDateTime, 0 < days →
        (_is_recent now (some t) days = true ↔ now - days * 86400 ≤ toSec t)) := by
  intro now days dt
  refine ⟨?_, ?_, ?_⟩
  · intro h
    simp [_is_recent, h]
  · intro h
    simp [_is_recent, not_le.mpr h]
  · intro t h
    simp [_is_recent, not_le.mpr h]

/-- Witness for claim C6 at concrete inputs. -/
theorem c6_is_recent_contract_witness :
    _is_recent 0 none (-3) = true ∧
    _is_recent 0 none 5 = false ∧
    (_is_recent 0 (some ⟨2024, 5, 3, 0, 0, 0⟩) 5 = true ↔
      (0 : Int) - 5 * 86400 ≤ toSec ⟨2024, 5, 3, 0, 0, 0⟩) :=
  ⟨(c6_is_recent_contract 0 (-3) none).1 (by decide),
   (c6_is_recent_contract 0 5 none).2.1 (by decide),
   (c6_is_recent_contract 0 5 none).2.2 ⟨2024, 5, 3, 0, 0, 0⟩ (by decide)⟩

/-- A successful `strptime` attempt only returns constructor-valid
datetimes. -/
theorem tryFormat_valid (p : List Char → Option (Nat × Nat × Nat × Nat × Nat × Nat))
    (cs : List Char) (d : PyDateTime) (h : tryFormat p cs = some d) :
    pyDatetimeOk d.year d.month d.day d.hour d.minute d.second = true := by
  unfold tryFormat at h
  split at h
  · next y m dd hh mi sec heq =>
    unfold mkPyDatetime at h
    split at h
    · next hok =>
      injection h with h
      subst h
      exact hok
    · exact Option.noConfusion h
  · exact Option.noConfusion h

/-- `_to_datetime` only returns constructor-valid datetimes. -/
theorem to_datetime_valid (s : String) (d : PyDateTime) (h : _to_datetime s = some d) :
    pyDatetimeOk d.year d.month d.day d.hour d.minute d.second = true := by
  unfold _to_datetime at h
  dsimp only at h
  split at h
  · exact Option.noConfusion h
  · split at h
    · next dt heq =>
      injection h with h
      subst h
      exact tryFormat_valid _ _ _ heq
    · split at h
      · next dt heq =>
        injection h with h
        subst h
        exact tryFormat_valid _ _ _ heq
      · exact tryFormat_valid _ _ _ h

/-- Claim C9: `_to_datetime` is total with `none` as its only failure
mode — for every input string it either returns `none` or a datetime that
passed the normalize-collapse-truncate-parse pipeline and the constructor
validity check (the caught-exception model of "never raises"); the CJK,
short-time, invalid-calendar-date and garbage examples evaluate as
stated. -/
theorem c9_parse_datetime_total :
    (∀ s : String, _to_datetime s = none ∨
      ∃ d : PyDateTime, _to_datetime s = some d ∧
        pyDatetimeOk d.year d.month d.day d.hour d.minute d.second = true) ∧
    _to_datetime "2024年5月3日" = some ⟨2024, 5, 3, 0, 0, 0⟩ ∧
    _to_datetime "2024-5-3 7:08" = some ⟨2024, 5, 3, 7, 8, 0⟩ ∧
    _to_datetime "2023-02-29" = none ∧
    _to_datetime "hello world" = none := by
  refine ⟨?_, by decide, by decide, by decide, by decide⟩
  intro s
  cases h : _to_datetime s with
  | none => exact Or.inl rfl
  | some d => exact Or.inr ⟨d, rfl, to_datetime_valid s d h⟩

/-- The aggregator dedup output is a sublist of its input (first
occurrences, in order). -/
theorem final_dedup_go_sublist :
    ∀ (items : List ArticleRecord) (seen : List (String × String)),
      (final_dedup_go items seen).Sublist items := by
  intro items
  induction items with
  | nil => intro seen; simp [final_dedup_go]
  | cons it rest ih =>
    intro seen
    rw [final_dedup_go]
    split
    · exact (ih seen).cons it
    · exact (ih _).cons₂ it

/-- The aggregator dedup output has pairwise distinct `(title, url)` keys,
none of them in the incoming seen set. -/
theorem final_dedup_go_nodup :
    ∀ (items : List ArticleRecord) (seen : List (String × String)),
      ((final_dedup_go items seen).map recordKey).Nodup ∧
      ∀ r ∈ final_dedup_go items seen, recordKey r ∉ seen := by
  intro items
  induction items with
  | nil => intro seen; exact ⟨by simp [final_dedup_go], by simp [final_dedup_go]⟩
  | cons it rest ih =>
    intro seen
    rw [final_dedup_go]
    split
    · exact ih seen
    · next hmem =>
      obtain ⟨ih1, ih2⟩ := ih ((it.title, it.url) :: seen)
      refine ⟨?_, ?_⟩
      · simp only [List.map_cons, List.nodup_cons]
        refine ⟨?_, ih1⟩
        intro hk
        obtain ⟨r, hr, hkey⟩ := List.mem_map.mp hk
        exact (ih2 r hr) (by rw [hkey]; exact List.mem_cons_self _ _)
      · intro r hr
        rcases List.mem_cons.mp hr with rfl | hr'
        · exact hmem
        · intro hseen
          exact (ih2 r hr') (List.mem_cons_of_mem _ hseen)

/-- Claim C8: the aggregator's merged list contains each `(title, url)`
pair at most once; it is the concatenation of the per-source results with
later duplicates dropped (a sublist, first occurrence kept); and two
pipelines each emitting a record with an identical `(title, url)` key
produce exactly one merged record. -/
theorem c8_aggregator_dedup :
    (∀ q x : List ArticleRecord, ((a_search_merge (q ++ x)).map recordKey).Nodup) ∧
    (∀ q x : List ArticleRecord, (a_search_merge (q ++ x)).Sublist (q ++ x)) ∧
    (∀ r1 r2 : ArticleRecord, recordKey r1 = recordKey r2 →
      a_search_merge ([r1] ++ [r2]) = [r1]) := by
  refine ⟨?_, ?_, ?_⟩
  · intro q x
    exact (final_dedup_go_nodup (q ++ x) []).1
  · intro q x
    exact final_dedup_go_sublist (q ++ x) []
  · intro r1 r2 h
    have hk : (r2.title, r2.url) = (r1.title, r1.url) := by
      unfold recordKey at h
      exact h.symm
    simp [a_search_merge, final_dedup_go, hk]

/-- Witness for claim C8: two records sharing a `(title, url)` key merge
into one. -/
theorem c8_aggregator_dedup_witness :
    a_search_merge ([recDemo] ++ [recDemoAlt]) = [recDemo] :=
  c8_aggregator_dedup.2.2 recDemo recDemoAlt (by decide)

/-- Inverting the final gate: an emitted record is the built record and
its title passed every check. -/
theorem finalGate_some (T : String) (rec r : ArticleRecord)
    (h : finalGate T rec = some r) :
    r = rec ∧ T ≠ "待解析标题" ∧ 4 ≤ T.length ∧
    strContains T "找不到您请求的页面" = false ∧
    strContains (asciiLower T) "404" = false := by
  unfold finalGate at h
  split at h
  · exact Option.noConfusion h
  · split at h
    · exact Option.noConfusion h
    · next hp hc =>
      injection h with h
      obtain ⟨hp1, hp2⟩ := not_or.mp hp
      obtain ⟨hc1, hc2⟩ := not_or.mp hc
      exact ⟨h.symm, hp1, by omega, Bool.eq_false_iff.mpr hc1, Bool.eq_false_iff.mpr hc2⟩

/-- The per-candidate body emits a record only after the final title gate:
the title is not the placeholder, is at least 4 characters long, and
carries no page-not-found or 404 indicator. -/
theorem processCandidate_title (env : String → Option FetchResult) (source : String)
    (days : Int) (targetDate : Option (Nat × Nat × Nat)) (now : Int) (c : Candidate)
    (r : ArticleRecord) (h : processCandidate env source days targetDate now c = some r) :
    r.title ≠ "待解析标题" ∧ 4 ≤ r.title.length ∧
    strContains r.title "找不到您请求的页面" = false ∧
    strContains (asciiLower r.title) "404" = false := by
  unfold processCandidate at h
  dsimp only at h
  repeat' split at h
  any_goals exact Option.noConfusion h
  all_goals
    obtain ⟨hr, h1, h2, h3, h4⟩ := finalGate_some _ _ _ h
    subst hr
    exact ⟨h1, h2, h3, h4⟩

/-- Any record the detail loop returns was either passed in or produced by
the per-candidate body. -/
theorem detailLoop_mem (env : String → Option FetchResult) (source : String)
    (days limit : Int) (targetDate : Option (Nat × Nat × Nat)) (now : Int) :
    ∀ (cands : List Candidate) (seen : List String) (results : List ArticleRecord)
      (r : ArticleRecord),
      r ∈ detailLoop env source days limit targetDate now cands seen results →
      r ∈ results ∨ ∃ c : Candidate, processCandidate env source days targetDate now c = some r := by
  intro cands
  induction cands with
  | nil =>
    intro seen results r h
    rw [detailLoop] at h
    exact Or.inl h
  | cons c cs ih =>
    intro seen results r h
    rw [detailLoop] at h
    dsimp only at h
    split at h
    · exact ih _ _ _ h
    · split at h
      · exact ih _ _ _ h
      · next r0 heq =>
        split at h
        · rcases List.mem_append.mp h with h' | h'
          · exact Or.inl h'
          · refine Or.inr ⟨c, ?_⟩
            have hr : r = r0 := List.mem_singleton.mp h'
            rw [hr]
            exact heq
        · rcases ih _ _ _ h with h' | h'
          · rcases List.mem_append.mp h' with h'' | h''
            · exact Or.inl h''
            · refine Or.inr ⟨c, ?_⟩
              have hr : r = r0 := List.mem_singleton.mp h''
              rw [hr]
              exact heq
          · exact Or.inr h'

/-- Claim C7: every record emitted by the per-source pipeline has a title
that is neither the placeholder sentinel nor shorter than 4 characters,
and carries no page-not-found or 404 indicator — for every fetch
environment, source, filter configuration and candidate list. -/
theorem c7_title_invariant :
    ∀ (env : String → Option FetchResult) (source : String) (days limit : Int)
      (targetDate : Option (Nat × Nat × Nat)) (now : Int) (cands : List Candidate)
      (r : ArticleRecord),
      r ∈ _fetch_site_detail env source days limit targetDate now cands →
      r.title ≠ "待解析标题" ∧ 4 ≤ r.title.length ∧
      strContains r.title "找不到您请求的页面" = false ∧
      strContains (asciiLower r.title) "404" = false := by
  intro env source days limit td now cands r h
  unfold _fetch_site_detail at h
  dsimp only at h
  rcases detailLoop_mem env source days limit td now _ _ _ _ h with h' | ⟨c, hc⟩
  · simp at h'
  · exact processCandidate_title _ _ _ _ _ _ _ hc

set_option maxRecDepth 8000 in
/-- Witness for claim C7: the record emitted in the demonstration
environment satisfies the title invariant. -/
theorem c7_title_invariant_witness :
    recDemo.title ≠ "待解析标题" ∧ 4 ≤ recDemo.title.length ∧
    strContains recDemo.title "找不到您请求的页面" = false ∧
    strContains (asciiLower recDemo.title) "404" = false :=
  c7_title_invariant qbitaiEnvDemo "qbitai" 0 5 none 0 [qbitaiCandDemo] recDemo (by decide)

/-- Once the result list is strictly below the limit, the detail loop can
never push it past the limit (the break fires right after each append). -/
theorem detailLoop_length_le (env : String → Option FetchResult) (source : String)
    (days limit : Int) (targetDate : Option (Nat × Nat × Nat)) (now : Int) :
    ∀ (cands : List Candidate) (seen : List String) (results : List ArticleRecord),
      (results.length : Int) < limit →
      ((detailLoop env source days limit targetDate now cands seen results).length : Int) ≤ limit := by
  intro cands
  induction cands with
  | nil =>
    intro seen results h
    rw [detailLoop]
    omega
  | cons c cs ih =>
    intro seen results h
    rw [detailLoop]
    dsimp only
    split
    · exact ih _ _ h
    · split
      · exact ih _ _ h
      · split
        · next hbreak =>
          simp only [List.length_append, List.length_singleton]
          push_cast
          omega
        · next hnb =>
          refine ih _ _ ?_
          simp only [List.length_append, List.length_singleton] at hnb ⊢
          push_cast at hnb ⊢
          omega

/-- For a non-positive limit the loop behaves exactly as for limit 1: the
early-exit test runs only after an append, so the first accepted record is
still emitted and immediately ends the loop. -/
theorem detailLoop_nonpos_eq (env : String → Option FetchResult) (source : String)
    (days limit : Int) (targetDate : Option (Nat × Nat × Nat)) (now : Int)
    (hl : limit ≤ 0) :
    ∀ (cands : List Candidate) (seen : List String),
      detailLoop env source days limit targetDate now cands seen [] =
      detailLoop env source days 1 targetDate now cands seen [] := by
  intro cands
  induction cands with
  | nil => intro seen; rfl
  | cons c cs ih =>
    intro seen
    conv_lhs => rw [detailLoop]
    conv_rhs => rw [detailLoop]
    dsimp only
    split
    · exact ih _
    · split
      · exact ih _
      · next r0 heq =>
        have h1 : limit ≤ ((([] : List ArticleRecord) ++ [r0]).length : Int) := by
          simp only [List.nil_append, List.length_singleton]
          omega
        have h2 : (1 : Int) ≤ ((([] : List ArticleRecord) ++ [r0]).length : Int) := by
          simp only [List.nil_append, List.length_singleton]
          norm_num
        rw [if_pos h1, if_pos h2]

/-- Claim C10: the early-exit test `len(results) >= limit` runs only after
a record has been appended, so the per-source bound `length ≤ limit` holds
exactly under the precondition `limit ≥ 1`; for `limit ≤ 0` the pipeline
behaves as for `limit = 1` — it still returns one record whenever at least
one candidate passes every filter, as the concrete run with `limit = 0`
shows. -/
theorem c10_limit_bound :
    (∀ (env : String → Option FetchResult) (source : String) (days limit : Int)
       (targetDate : Option (Nat × Nat × Nat)) (now : Int) (cands : List Candidate),
       1 ≤ limit →
       ((_fetch_site_detail env source days limit targetDate now cands).length : Int) ≤ limit) ∧
    (∀ (env : String → Option FetchResult) (source : String) (days limit : Int)
       (targetDate : Option (Nat × Nat × Nat)) (now : Int) (cands : List Candidate),
       limit ≤ 0 →
       _fetch_site_detail env source days limit targetDate now cands =
       _fetch_site_detail env source days 1 targetDate now cands) ∧
    (_fetch_site_detail qbitaiEnvDemo "qbitai" 0 0 none 0 [qbitaiCandDemo]).length = 1 := by
  refine ⟨?_, ?_, ?_⟩
  · intro env source days limit td now cands h1
    unfold _fetch_site_detail
    dsimp only
    refine detailLoop_length_le env source days limit td now _ _ _ ?_
    simp only [List.length_nil]
    omega
  · intro env source days limit td now cands hl
    unfold _fetch_site_detail
    dsimp only
    have hmax : max limit 10 = (10 : Int) := max_eq_right (by omega)
    have hmax1 : max (1 : Int) 10 = (10 : Int) := max_eq_right (by norm_num)
    rw [hmax, hmax1]
    exact detailLoop_nonpos_eq env source days limit td now hl _ _
  · decide

set_option maxRecDepth 8000 in
/-- Witness for claim C10 at a concrete limit above and below zero. -/
theorem c10_limit_bound_witness :
    ((_fetch_site_detail qbitaiEnvDemo "qbitai" 0 5 none 0 [qbitaiCandDemo]).length : Int) ≤ 5 ∧
    _fetch_site_detail qbitaiEnvDemo "qbitai" 0 (-2) none 0 [qbitaiCandDemo] =
      _fetch_site_detail qbitaiEnvDemo "qbitai" 0 1 none 0 [qbitaiCandDemo] :=
  ⟨c10_limit_bound.1 qbitaiEnvDemo "qbitai" 0 5 none 0 [qbitaiCandDemo] (by norm_num),
   c10_limit_bound.2.1 qbitaiEnvDemo "qbitai" 0 (-2) none 0 [qbitaiCandDemo] (by norm_num)⟩
